import Mathlib

/-!
# OpenCLIF ETL — verification of the category-mapping and reshaping engine

Shallow embedding of `src/main.py` (OpenCLIF ETL). The embedding models:

* the mapping-table rows (`MapRow`) with one optional identifier-list field per
  source dataset (`eicu_ids`, `hirid_ids`, `aumc_ids`, `sic_ids`);
* Python / polars primitives actually used by the code: `str.split(";")`,
  `str.strip()`, `str.isdigit()`, `str.lower()`, dict insertion with
  last-write-wins lookup, and polars `Expr.replace` (unmatched values pass
  through unchanged);
* the per-dataset adapter bodies (`_etl_eicu_vitals`, `_etl_eicu_labs`,
  `_etl_sic_vitals`, `_etl_sic_labs`, `_etl_hirid_vitals`, `_etl_aumc_vitals`,
  and the no-op labs steps for HiRID/AUMC), with file reading/writing modelled
  as `Option` inputs and an explicit output state (`EtlState`).

Cell values are carried as `Option String` (raw CSV text or null); the engine
never interprets them beyond null-filtering, so this is faithful.
-/

/-- Python `s.split(";")` on the character list of a string:
splitting on every `';'`, keeping empty pieces, and yielding `[""]` on `""`. -/
def splitSemiAux : List Char → List Char → List (List Char)
  | [], acc => [acc.reverse]
  | c :: rest, acc =>
      if c = ';' then acc.reverse :: splitSemiAux rest []
      else splitSemiAux rest (c :: acc)

/-- Python `s.split(";")`. -/
def pySplitSemi (s : String) : List String :=
  (splitSemiAux s.toList []).map List.asString

/-- ASCII whitespace, as stripped by Python `str.strip()` on the mapping data. -/
def isSpaceChar (c : Char) : Bool :=
  c = ' ' || c = '\t' || c = '\n' || c = '\r'

/-- Python `s.strip()`: drop whitespace from both ends. -/
def pyStrip (s : String) : String :=
  List.asString (((s.toList.dropWhile isSpaceChar).reverse.dropWhile isSpaceChar).reverse)

/-- Python `s.isdigit()` (restricted to ASCII digits, which is what the
mapping artifacts contain): non-empty and all characters are digits. -/
def pyIsDigit (s : String) : Bool :=
  !s.toList.isEmpty && s.toList.all Char.isDigit

/-- Python `int(s)` for a string of ASCII digits. -/
def digitsToNat (s : String) : Nat :=
  s.toList.foldl (fun a c => a * 10 + (c.toNat - 48)) 0

/-- Python `s.lower()` (ASCII). -/
def pyLower (s : String) : String :=
  List.asString (s.toList.map Char.toLower)

/-- A Python dict built by a sequence of insertions, kept as the raw insertion
list; lookup takes the LAST insertion for a key (last-write-wins), exactly the
semantics of repeated `d[k] = v`. -/
def pyDictGet {α β : Type} [BEq α] (m : List (α × β)) (k : α) : Option β :=
  (m.reverse.find? (fun p => p.1 == k)).map Prod.snd

/-- polars `Expr.replace(mapping)`: values matching a key of the mapping are
replaced; values matching no key remain unchanged. -/
def pyReplace {α : Type} [BEq α] (m : List (α × α)) (k : α) : α :=
  (pyDictGet m k).getD k

/-- polars `Expr.replace(mapping)` on an integer column with string
replacement values: matched identifiers become their category string,
unmatched identifiers are cast to their string form (supertype `String`). -/
def pyReplaceIntStr (m : List (Int × String)) (k : Int) : String :=
  (pyDictGet m k).getD (toString k)

/-- One row of a mapping CSV (`load_mappings`): the canonical category
(the `vital_category` / `lab_category` column, whichever the domain uses)
plus the per-source identifier-list cells, `none` for a null cell. -/
structure MapRow where
  category : String
  eicu_ids : Option String := none
  hirid_ids : Option String := none
  aumc_ids : Option String := none
  sic_ids : Option String := none
deriving DecidableEq, Repr

/-- `load_mappings`: `csv_files = list(mapping_dir.glob("*.csv"))`; raises
`FileNotFoundError` when the list is empty, otherwise reads `csv_files[0]`
(the first candidate), regardless of how many candidates exist. -/
def load_mappings {α : Type} (csvFiles : List α) : Except String α :=
  match csvFiles with
  | [] => Except.error "No mapping file found"
  | f :: _ => Except.ok f

/-- The truthiness test guarding numeric identifier fields:
`if ids and str(ids) != "nan" and str(ids).strip():` —
`None` and `""` are falsy, the string `"nan"` is excluded, and an
all-whitespace field is excluded by the `.strip()` truthiness check. -/
def idFieldPresent : Option String → Bool
  | none => false
  | some s => !(s == "") && !(s == "nan") && !(pyStrip s == "")

/-- The numeric identifier resolver shared by the SIC / HiRID / AUMC adapters:
for each mapping row, if that dataset's identifier field passes
`idFieldPresent`, split it on `;`, strip each element, keep elements that are
all digits, and record the insertion `int(element) -> row.category`.
The resulting insertion list is looked up with `pyDictGet`
(last-write-wins), matching Python dict assignment. -/
def numericEntries (field : MapRow → Option String) (rows : List MapRow) :
    List (Int × String) :=
  rows.flatMap (fun r =>
    if idFieldPresent (field r) then
      (pySplitSemi ((field r).getD "")).filterMap (fun e =>
        if pyIsDigit (pyStrip e) then
          some (((digitsToNat (pyStrip e) : Nat) : Int), r.category)
        else none)
    else [])

/-- The eICU labs resolver (`_etl_eicu_labs`, the `lab_map` loop): for each
mapping row, if `eicu_ids` is truthy and not `"nan"`, insert the WHOLE
lower-cased field as a single key mapping to `lab_category`.
(The source performs no split on `;` and no strip here.) -/
def eicuLabEntries (labsMap : List MapRow) : List (String × String) :=
  labsMap.filterMap (fun r =>
    match r.eicu_ids with
    | none => none
    | some s => if !(s == "") && !(s == "nan") then some (pyLower s, r.category) else none)

/-- `_etl_hirid_vitals` builds `id_map` from the vitals mapping table first,
then layers the labs mapping table's entries on top (same dict, later
insertions win). -/
def hiridMergedEntries (vitalsMap labsMap : List MapRow) : List (Int × String) :=
  numericEntries MapRow.hirid_ids vitalsMap ++ numericEntries MapRow.hirid_ids labsMap

/-- `_etl_aumc_vitals` builds `id_map` from the vitals mapping table first,
then layers the labs mapping table's entries on top. -/
def aumcMergedEntries (vitalsMap labsMap : List MapRow) : List (Int × String) :=
  numericEntries MapRow.aumc_ids vitalsMap ++ numericEntries MapRow.aumc_ids labsMap

/-- A canonical CLIF output record: encounter id, time reference (offset or
timestamp, passed through as an integer), category column (nullable string),
value column (nullable raw text). -/
structure CanonRecord where
  hospitalization_id : Int
  time_ref : Int
  category : Option String
  value : Option String
deriving DecidableEq, Repr

/-- A row of SICdb `data_float_h` / `laboratory` (the columns the adapter
touches): `CaseID`, `Offset`, the item identifier column
(`DataID` / `LaboratoryID`), and the value column (`Val` / `LaboratoryValue`). -/
structure SicRow where
  caseId : Int
  offset : Int
  itemId : Int
  val : Option String
deriving DecidableEq, Repr

/-- A row of eICU `lab` (the selected columns): `patientunitstayid`,
`labresultoffset`, `labname` (nullable text), `labresult` (nullable). -/
structure EicuLabRow where
  stay : Int
  offset : Int
  labname : Option String
  labresult : Option String
deriving DecidableEq, Repr

/-- A row of eICU `vitalperiodic`: the two id columns plus the wide value
cells, stored as an association list from column name to nullable cell. -/
structure EicuWideRow where
  stay : Int
  time : Int
  cells : List (String × Option String)
deriving DecidableEq, Repr

/-- A row of HiRID `observations`: `patientid`, `datetime`, `variableid`,
`value`. -/
structure ObsRow where
  pid : Int
  datetime : Int
  variableid : Int
  value : Option String
deriving DecidableEq, Repr

/-- A row of AUMC `numericitems`: `admissionid`, `measuredat`, `itemid`,
`value`. -/
structure AumcRow where
  admissionid : Int
  measuredat : Int
  itemid : Int
  value : Option String
deriving DecidableEq, Repr

/-- The hard-coded eICU column-name → CLIF category table
(`eicu_vital_map` in `_etl_eicu_vitals`), in source (dict-insertion) order. -/
def eicu_vital_map : List (String × String) :=
  [("temperature", "temp_c"),
   ("heartrate", "heart_rate"),
   ("systemicsystolic", "sbp"),
   ("systemicdiastolic", "dbp"),
   ("sao2", "spo2"),
   ("respiration", "respiratory_rate"),
   ("systemicmean", "map")]

/-- `[c for c in eicu_vital_map.keys() if c in available_cols]`: the value
columns that will be unpivoted, in the dict's key order. -/
def eicuValueCols (availableCols : List String) : List String :=
  (eicu_vital_map.map Prod.fst).filter (fun c => availableCols.contains c)

/-- Reading a wide row's cell for a column name; a column absent from the
row's cell list reads as null. -/
def getCell (r : EicuWideRow) (c : String) : Option String :=
  ((r.cells.find? (fun p => p.1 == c)).map Prod.snd).getD none

/-- An intermediate long row produced by `unpivot`: the two id columns, the
`eicu_col` variable column and the `vital_value` value column. -/
structure LongRow where
  stay : Int
  time : Int
  col : String
  value : Option String
deriving DecidableEq, Repr

/-- polars `unpivot(index=id_cols, on=value_cols)`: the long frame stacks one
block per value column (column-major), each block carrying every source row's
cell for that column. -/
def eicuUnpivot (valueCols : List String) (rows : List EicuWideRow) : List LongRow :=
  valueCols.flatMap (fun c => rows.map (fun r => ⟨r.stay, r.time, c, getCell r c⟩))

/-- `_etl_eicu_vitals` after the file-existence check: select the available
value columns, unpivot, map `eicu_col` to the CLIF category via `replace`,
rename/select to the CLIF schema, and drop null-value rows. When no known
value column is present (`if value_cols:` fails) nothing is written (`none`);
otherwise the written file's rows are returned (`some`). -/
def etl_eicu_vitals_rows (availableCols : List String) (rows : List EicuWideRow) :
    Option (List CanonRecord) :=
  let vcols := eicuValueCols availableCols
  if vcols.isEmpty then none
  else
    some (((eicuUnpivot vcols rows).map (fun lr =>
      ({ hospitalization_id := lr.stay, time_ref := lr.time,
         category := some (pyReplace eicu_vital_map lr.col),
         value := lr.value } : CanonRecord))).filter (fun c => c.value.isSome))

/-- `_etl_eicu_labs` after the file-existence check: build `lab_map`
(`eicuLabEntries`), lower-case `labname` and `replace` it through the map to
produce `lab_category` (unmatched labels pass through unchanged; a null
`labname` stays null), rename/select, and drop null-`lab_value` rows.
The output file is always written. -/
def etl_eicu_labs_rows (labsMap : List MapRow) (rows : List EicuLabRow) :
    List CanonRecord :=
  let lab_map := eicuLabEntries labsMap
  ((rows.map (fun r =>
    ({ hospitalization_id := r.stay, time_ref := r.offset,
       category := r.labname.map (fun s => pyReplace lab_map (pyLower s)),
       value := r.labresult } : CanonRecord))).filter (fun c => c.value.isSome))

/-- `_etl_sic_vitals` after the file-existence check: build `id_map` from the
vitals mapping table (`sic_ids` column), filter rows to `DataID ∈ id_map`,
and if the filtered frame is empty print a warning and RETURN WITHOUT
WRITING (`none`). Otherwise `replace` `DataID` into `vital_category`,
rename/select, drop null-`Val` rows, and write (`some`). -/
def etl_sic_vitals_rows (vitalsMap : List MapRow) (rows : List SicRow) :
    Option (List CanonRecord) :=
  let id_map := numericEntries MapRow.sic_ids vitalsMap
  let mapped_ids := id_map.map Prod.fst
  let df := rows.filter (fun r => mapped_ids.contains r.itemId)
  if df.isEmpty then none
  else
    some ((df.map (fun r =>
      ({ hospitalization_id := r.caseId, time_ref := r.offset,
         category := some (pyReplaceIntStr id_map r.itemId),
         value := r.val } : CanonRecord))).filter (fun c => c.value.isSome))

/-- `_etl_sic_labs` after the file-existence check: same shape as the SIC
vitals adapter, over the labs mapping table and the `LaboratoryID` /
`LaboratoryValue` columns; an empty post-filter frame returns without
writing. -/
def etl_sic_labs_rows (labsMap : List MapRow) (rows : List SicRow) :
    Option (List CanonRecord) :=
  let id_map := numericEntries MapRow.sic_ids labsMap
  let mapped_ids := id_map.map Prod.fst
  let df := rows.filter (fun r => mapped_ids.contains r.itemId)
  if df.isEmpty then none
  else
    some ((df.map (fun r =>
      ({ hospitalization_id := r.caseId, time_ref := r.offset,
         category := some (pyReplaceIntStr id_map r.itemId),
         value := r.val } : CanonRecord))).filter (fun c => c.value.isSome))

/-- `_etl_hirid_vitals` after the file lookup: build the MERGED `id_map`
(vitals entries first, labs entries layered on top), filter to mapped
`variableid`s, return without writing when empty, else map the category,
rename/select, drop null values, and write `vitals.parquet`. -/
def etl_hirid_vitals_rows (vitalsMap labsMap : List MapRow) (rows : List ObsRow) :
    Option (List CanonRecord) :=
  let id_map := hiridMergedEntries vitalsMap labsMap
  let mapped_ids := id_map.map Prod.fst
  let df := rows.filter (fun r => mapped_ids.contains r.variableid)
  if df.isEmpty then none
  else
    some ((df.map (fun r =>
      ({ hospitalization_id := r.pid, time_ref := r.datetime,
         category := some (pyReplaceIntStr id_map r.variableid),
         value := r.value } : CanonRecord))).filter (fun c => c.value.isSome))

/-- `_etl_aumc_vitals` after the file lookup: same shape as the HiRID vitals
adapter over `numericitems` (`itemid`, `admissionid`, `measuredat`, `value`),
with the merged vitals+labs `id_map`. -/
def etl_aumc_vitals_rows (vitalsMap labsMap : List MapRow) (rows : List AumcRow) :
    Option (List CanonRecord) :=
  let id_map := aumcMergedEntries vitalsMap labsMap
  let mapped_ids := id_map.map Prod.fst
  let df := rows.filter (fun r => mapped_ids.contains r.itemid)
  if df.isEmpty then none
  else
    some ((df.map (fun r =>
      ({ hospitalization_id := r.admissionid, time_ref := r.measuredat,
         category := some (pyReplaceIntStr id_map r.itemid),
         value := r.value } : CanonRecord))).filter (fun c => c.value.isSome))

/-- The output directory, one slot per concept-domain file
(`vitals.parquet`, `labs.parquet`); `none` means the file does not exist. -/
structure EtlState where
  vitalsOut : Option (List CanonRecord)
  labsOut : Option (List CanonRecord)
deriving DecidableEq, Repr

/-- `_etl_eicu_vitals` including the file-existence check: a missing
`vitalperiodic.csv` (`none` input) prints a skip line and returns with the
output state untouched; so does an empty `value_cols` list. -/
def run_etl_eicu_vitals (vitalFile : Option (List String × List EicuWideRow))
    (st : EtlState) : EtlState :=
  match vitalFile with
  | none => st
  | some (availableCols, rows) =>
      match etl_eicu_vitals_rows availableCols rows with
      | none => st
      | some recs => { st with vitalsOut := some recs }

/-- `_etl_eicu_labs` including the file-existence check. -/
def run_etl_eicu_labs (labFile : Option (List EicuLabRow)) (labsMap : List MapRow)
    (st : EtlState) : EtlState :=
  match labFile with
  | none => st
  | some rows => { st with labsOut := some (etl_eicu_labs_rows labsMap rows) }

/-- `etl_eicu`: runs the vitals adapter, then the labs adapter. -/
def etl_eicu (vitalFile : Option (List String × List EicuWideRow))
    (labFile : Option (List EicuLabRow)) (labsMap : List MapRow)
    (st : EtlState) : EtlState :=
  run_etl_eicu_labs labFile labsMap (run_etl_eicu_vitals vitalFile st)

/-- `_etl_sic_vitals` including the file-existence check. -/
def run_etl_sic_vitals (vitalFile : Option (List SicRow)) (vitalsMap : List MapRow)
    (st : EtlState) : EtlState :=
  match vitalFile with
  | none => st
  | some rows =>
      match etl_sic_vitals_rows vitalsMap rows with
      | none => st
      | some recs => { st with vitalsOut := some recs }

/-- `_etl_sic_labs` including the file-existence check. -/
def run_etl_sic_labs (labFile : Option (List SicRow)) (labsMap : List MapRow)
    (st : EtlState) : EtlState :=
  match labFile with
  | none => st
  | some rows =>
      match etl_sic_labs_rows labsMap rows with
      | none => st
      | some recs => { st with labsOut := some recs }

/-- `etl_sic`: vitals adapter then labs adapter. -/
def etl_sic (vitalFile labFile : Option (List SicRow)) (vitalsMap labsMap : List MapRow)
    (st : EtlState) : EtlState :=
  run_etl_sic_labs labFile labsMap (run_etl_sic_vitals vitalFile vitalsMap st)

/-- `_etl_hirid_vitals` including the observations lookup. -/
def run_etl_hirid_vitals (obsFile : Option (List ObsRow)) (vitalsMap labsMap : List MapRow)
    (st : EtlState) : EtlState :=
  match obsFile with
  | none => st
  | some rows =>
      match etl_hirid_vitals_rows vitalsMap labsMap rows with
      | none => st
      | some recs => { st with vitalsOut := some recs }

/-- `_etl_hirid_labs`: prints a notice only; labs are handled by the vitals
step, so the output state is returned unchanged. -/
def run_etl_hirid_labs (st : EtlState) : EtlState := st

/-- `etl_hirid`: vitals adapter then the no-op labs step. -/
def etl_hirid (obsFile : Option (List ObsRow)) (vitalsMap labsMap : List MapRow)
    (st : EtlState) : EtlState :=
  run_etl_hirid_labs (run_etl_hirid_vitals obsFile vitalsMap labsMap st)

/-- `_etl_aumc_vitals` including the numericitems lookup. -/
def run_etl_aumc_vitals (vitalFile : Option (List AumcRow)) (vitalsMap labsMap : List MapRow)
    (st : EtlState) : EtlState :=
  match vitalFile with
  | none => st
  | some rows =>
      match etl_aumc_vitals_rows vitalsMap labsMap rows with
      | none => st
      | some recs => { st with vitalsOut := some recs }

/-- `_etl_aumc_labs`: prints a notice only; the output state is unchanged. -/
def run_etl_aumc_labs (st : EtlState) : EtlState := st

/-- `etl_aumc`: vitals adapter then the no-op labs step. -/
def etl_aumc (vitalFile : Option (List AumcRow)) (vitalsMap labsMap : List MapRow)
    (st : EtlState) : EtlState :=
  run_etl_aumc_labs (run_etl_aumc_vitals vitalFile vitalsMap labsMap st)

/-! ## Shared lemmas about the embedded primitives -/

/-- A lookup that succeeds in the later insertion block wins over anything in
the earlier block: Python dict last-write-wins. -/
theorem pyDictGet_append_right {α β : Type} [BEq α] (m₁ m₂ : List (α × β)) (k : α)
    (c : β) (h : pyDictGet m₂ k = some c) : pyDictGet (m₁ ++ m₂) k = some c := by
  unfold pyDictGet at h ⊢
  rw [List.reverse_append, List.find?_append]
  rcases hf : m₂.reverse.find? (fun p => p.1 == k) with _ | x
  · rw [hf] at h; simp at h
  · rw [hf] at h
    rw [hf, Option.or]
    exact h

/-- A successful dict lookup means the key occurs among the inserted keys. -/
theorem pyDictGet_mem_keys {α β : Type} [BEq α] [LawfulBEq α] (m : List (α × β))
    (k : α) (c : β) (h : pyDictGet m k = some c) : k ∈ m.map Prod.fst := by
  unfold pyDictGet at h
  rcases hf : m.reverse.find? (fun p => p.1 == k) with _ | x
  · rw [hf] at h; simp at h
  · have hx : x ∈ m.reverse := List.mem_of_find?_eq_some hf
    have hk := List.find?_some hf
    rw [List.mem_reverse] at hx
    have hxk : x.1 = k := by simpa using hk
    exact hxk ▸ List.mem_map_of_mem Prod.fst hx

/-- The numeric resolver distributes over concatenation of the mapping rows:
entries of the second block are inserted after those of the first. -/
theorem numericEntries_append (f : MapRow → Option String) (rows₁ rows₂ : List MapRow) :
    numericEntries f (rows₁ ++ rows₂)
      = numericEntries f rows₁ ++ numericEntries f rows₂ := by
  simp [numericEntries]

/-- Commuting `filter value-null` past `map to-canonical-record` back into a
single filter on the source rows, for any per-row canonicalization whose
value column comes straight from the source row. -/
theorem filter_map_filter_comm {ρ σ : Type} (p : ρ → Bool) (f : ρ → σ) (q : σ → Bool)
    (pv : ρ → Bool) (hq : ∀ r, q (f r) = pv r) (rows : List ρ) :
    ((rows.filter p).map f).filter q
      = (rows.filter (fun r => p r && pv r)).map f := by
  induction rows with
  | nil => rfl
  | cons r rs ih =>
    by_cases hp : p r = true
    · by_cases hv : pv r = true
      · simp [List.filter_cons, hp, hv, hq, ih]
      · simp only [Bool.not_eq_true] at hv
        simp [List.filter_cons, hp, hv, hq, ih]
    · simp only [Bool.not_eq_true] at hp
      simp [List.filter_cons, hp, ih]

/-- If no source row passes the first filter, none passes the conjunction of
both filters. -/
theorem filter_and_nil {ρ : Type} (p pv : ρ → Bool) (rows : List ρ)
    (h : rows.filter p = []) : rows.filter (fun r => p r && pv r) = [] := by
  rw [List.filter_eq_nil_iff] at h ⊢
  intro a ha
  simp [h a ha]

/-! ## Claim theorems -/

/-- C4 counterexample: with two candidate mapping artifacts, `load_mappings`
does not fail — it silently returns the first candidate. -/
theorem load_mappings_multiple_counterexample :
    load_mappings [(0 : Nat), 1] = Except.ok 0 := rfl

/-- C4 (amended): loading the Mapping Table fails (ConfigurationError /
`FileNotFoundError`) exactly when zero candidate artifacts exist; when one or
more exist it silently returns the first candidate, even if several exist. -/
theorem load_mappings_zero_or_first {α : Type} (l : List α) :
    (l = [] → load_mappings l = Except.error "No mapping file found")
  ∧ (∀ f rest, l = f :: rest → load_mappings l = Except.ok f) := by
  constructor
  · rintro rfl; rfl
  · rintro f rest rfl; rfl

/-- C4 witness: the amended theorem applied to a zero-candidate list and to a
two-candidate list. -/
theorem load_mappings_zero_or_first_witness :
    load_mappings ([] : List Nat) = Except.error "No mapping file found"
  ∧ load_mappings [(3 : Nat), 4] = Except.ok 3 :=
  ⟨(load_mappings_zero_or_first ([] : List Nat)).1 rfl,
   (load_mappings_zero_or_first [(3 : Nat), 4]).2 3 [4] rfl⟩

/-- C6: the resolver's insertion order is last-write-wins — if the later
block of mapping rows resolves an identifier, the combined resolver returns
that later value; in particular the HiRID and AUMC merged lookups (labs
layered after vitals) return the labs category for any identifier the labs
mapping table claims. -/
theorem resolver_last_write_wins (f : MapRow → Option String)
    (rows₁ rows₂ vitalsMap labsMap : List MapRow) (k : Int) (c : String) :
    (pyDictGet (numericEntries f rows₂) k = some c →
      pyDictGet (numericEntries f (rows₁ ++ rows₂)) k = some c)
  ∧ (pyDictGet (numericEntries MapRow.hirid_ids labsMap) k = some c →
      pyDictGet (hiridMergedEntries vitalsMap labsMap) k = some c)
  ∧ (pyDictGet (numericEntries MapRow.aumc_ids labsMap) k = some c →
      pyDictGet (aumcMergedEntries vitalsMap labsMap) k = some c) := by
  refine ⟨fun h => ?_, fun h => ?_, fun h => ?_⟩
  · rw [numericEntries_append]
    exact pyDictGet_append_right _ _ _ _ h
  · simp only [hiridMergedEntries]
    exact pyDictGet_append_right _ _ _ _ h
  · simp only [aumcMergedEntries]
    exact pyDictGet_append_right _ _ _ _ h

/-- C6 witness: identifier 42 is claimed by a vitals entry (`heart_rate`) and
by a labs entry (`sodium`); the merged HiRID lookup returns the labs
category. -/
theorem resolver_last_write_wins_witness :
    pyDictGet
      (hiridMergedEntries [{category := "heart_rate", hirid_ids := some "42"}]
        [{category := "sodium", hirid_ids := some "42"}]) 42 = some "sodium" :=
  (resolver_last_write_wins MapRow.hirid_ids [] []
      [{category := "heart_rate", hirid_ids := some "42"}]
      [{category := "sodium", hirid_ids := some "42"}] 42 "sodium").2.1 (by decide)

/-- C7: resolving a category whose identifier list is `"10; 20;30"` yields
exactly the keys 10, 20 and 30 (post-trim, each as an integer) mapping to
that category; listed elements that fail `isdigit` (e.g. `-5`, `3.5`, `x`)
are silently excluded; and in general every resolved key arises from an
all-digits post-strip element of some row's list. -/
theorem numeric_resolver_roundtrip_and_exclusion :
    (numericEntries MapRow.sic_ids [{category := "c", sic_ids := some "10; 20;30"}]
        = [((10 : Int), "c"), (20, "c"), (30, "c")])
  ∧ (numericEntries MapRow.sic_ids [{category := "c", sic_ids := some "10; -5; 3.5; x; 30"}]
        = [((10 : Int), "c"), (30, "c")])
  ∧ (∀ (rows : List MapRow) (k : Int) (c : String),
      (k, c) ∈ numericEntries MapRow.sic_ids rows →
      ∃ r, r ∈ rows ∧ idFieldPresent r.sic_ids ∧
        ∃ e, e ∈ pySplitSemi ((r.sic_ids).getD "") ∧ pyIsDigit (pyStrip e) ∧
          k = ((digitsToNat (pyStrip e) : Nat) : Int) ∧ c = r.category) := by
  refine ⟨by decide, by decide, ?_⟩
  intro rows k c h
  rw [numericEntries, List.mem_flatMap] at h
  obtain ⟨r, hr, hmem⟩ := h
  by_cases hp : idFieldPresent r.sic_ids = true
  · simp only [hp, if_true] at hmem
    rw [List.mem_filterMap] at hmem
    obtain ⟨e, he, heq⟩ := hmem
    by_cases hd : pyIsDigit (pyStrip e) = true
    · simp only [hd, if_true, Option.some.injEq, Prod.mk.injEq] at heq
      exact ⟨r, hr, hp, e, he, hd, heq.1.symm, heq.2.symm⟩
    · simp only [Bool.not_eq_true] at hd
      simp [hd] at heq
  · simp only [Bool.not_eq_true] at hp
    simp [hp] at hmem

/-- C7 witness: the general exclusion characterization applied to a concrete
one-row mapping table resolving key 7. -/
theorem numeric_resolver_roundtrip_and_exclusion_witness :
    ∃ r, r ∈ [({category := "c", sic_ids := some "7"} : MapRow)] ∧
      idFieldPresent r.sic_ids ∧
      ∃ e, e ∈ pySplitSemi ((r.sic_ids).getD "") ∧ pyIsDigit (pyStrip e) ∧
        ((7 : Int)) = ((digitsToNat (pyStrip e) : Nat) : Int) ∧ "c" = r.category :=
  numeric_resolver_roundtrip_and_exclusion.2.2
    [{category := "c", sic_ids := some "7"}] 7 "c" (by decide)

/-- C9: a missing native source file (`none` input) leaves the output state
untouched for every adapter, raises nothing, and the per-dataset drivers
still run the remaining adapter. -/
theorem missing_native_file_skips (st : EtlState) (vitalsMap labsMap : List MapRow)
    (eicuLabFile : Option (List EicuLabRow))
    (eicuVitalFile : Option (List String × List EicuWideRow))
    (sicVitalFile sicLabFile : Option (List SicRow)) :
    run_etl_eicu_vitals none st = st
  ∧ run_etl_eicu_labs none labsMap st = st
  ∧ run_etl_sic_vitals none vitalsMap st = st
  ∧ run_etl_sic_labs none labsMap st = st
  ∧ run_etl_hirid_vitals none vitalsMap labsMap st = st
  ∧ run_etl_aumc_vitals none vitalsMap labsMap st = st
  ∧ etl_eicu none eicuLabFile labsMap st = run_etl_eicu_labs eicuLabFile labsMap st
  ∧ etl_eicu eicuVitalFile none labsMap st = run_etl_eicu_vitals eicuVitalFile st
  ∧ etl_sic none sicLabFile vitalsMap labsMap st = run_etl_sic_labs sicLabFile labsMap st
  ∧ etl_sic sicVitalFile none vitalsMap labsMap st
      = run_etl_sic_vitals sicVitalFile vitalsMap st
  ∧ etl_hirid none vitalsMap labsMap st = st
  ∧ etl_aumc none vitalsMap labsMap st = st :=
  ⟨rfl, rfl, rfl, rfl, rfl, rfl, rfl, rfl, rfl, rfl, rfl, rfl⟩

/-- C1 counterexample: mapping table maps only identifier 5, the single
source row carries identifier 7 — after filtering to mapped identifiers zero
rows remain, and the SIC vitals adapter returns WITHOUT writing any output
file (`none`), instead of writing an empty file. -/
theorem sic_empty_match_no_file_counterexample :
    (([({caseId := 1, offset := 0, itemId := 7, val := some "80"} : SicRow)]).filter
        (fun r => ((numericEntries MapRow.sic_ids
            [{category := "heart_rate", sic_ids := some "5"}]).map Prod.fst).contains
          r.itemId)) = []
  ∧ etl_sic_vitals_rows [{category := "heart_rate", sic_ids := some "5"}]
      [{caseId := 1, offset := 0, itemId := 7, val := some "80"}] = none := by decide

/-- C1 (amended): for the identifier-keyed SIC adapters, when zero source
rows match any mapped identifier the adapter prints an informational line and
returns WITHOUT writing an output file; a zero-row output file is written
only when at least one row matches a mapped identifier but every matched row
has a null value. Neither outcome is a failure. -/
theorem sic_empty_match_skips_write (vitalsMap labsMap : List MapRow)
    (vrows lrows : List SicRow) :
    (vrows.filter (fun r =>
        ((numericEntries MapRow.sic_ids vitalsMap).map Prod.fst).contains r.itemId) = [] →
      etl_sic_vitals_rows vitalsMap vrows = none)
  ∧ ((vrows.filter (fun r =>
        ((numericEntries MapRow.sic_ids vitalsMap).map Prod.fst).contains r.itemId)) ≠ [] →
      (∀ r ∈ vrows.filter (fun r =>
          ((numericEntries MapRow.sic_ids vitalsMap).map Prod.fst).contains r.itemId),
        r.val = none) →
      etl_sic_vitals_rows vitalsMap vrows = some [])
  ∧ (lrows.filter (fun r =>
        ((numericEntries MapRow.sic_ids labsMap).map Prod.fst).contains r.itemId) = [] →
      etl_sic_labs_rows labsMap lrows = none) := by
  refine ⟨fun h => ?_, fun hne hnull => ?_, fun h => ?_⟩
  · simp only [etl_sic_vitals_rows]
    rw [if_pos (by rw [List.isEmpty_iff]; exact h)]
  · simp only [etl_sic_vitals_rows]
    rw [if_neg (by rw [List.isEmpty_iff]; exact hne)]
    congr 1
    rw [List.filter_eq_nil_iff]
    intro a ha
    obtain ⟨r, hr, hre⟩ := List.mem_map.mp ha
    have : r.val = none := hnull r hr
    subst hre
    simp [this]
  · simp only [etl_sic_labs_rows]
    rw [if_pos (by rw [List.isEmpty_iff]; exact h)]

/-- C1 witness: the amended theorem at a row that matches nothing (no file),
and at a mapped row with a null value (empty file written). -/
theorem sic_empty_match_skips_write_witness :
    etl_sic_vitals_rows [{category := "spo2", sic_ids := some "3"}]
        [{caseId := 9, offset := 1, itemId := 4, val := some "99"}] = none
  ∧ etl_sic_vitals_rows [{category := "spo2", sic_ids := some "3"}]
        [{caseId := 9, offset := 1, itemId := 3, val := none}] = some [] :=
  ⟨(sic_empty_match_skips_write [{category := "spo2", sic_ids := some "3"}] []
      [{caseId := 9, offset := 1, itemId := 4, val := some "99"}] []).1 (by decide),
   (sic_empty_match_skips_write [{category := "spo2", sic_ids := some "3"}] []
      [{caseId := 9, offset := 1, itemId := 3, val := none}] []).2.1
      (by decide) (by decide)⟩

/-- C5: for the identifier-keyed SIC vitals adapter, the written rows are
exactly the canonical images of the source rows whose identifier is a key of
the Resolved Lookup and whose value is non-null, and the output row count is
the count of source rows satisfying both conditions. -/
theorem sic_vitals_output_characterization (vitalsMap : List MapRow) (rows : List SicRow) :
    ((etl_sic_vitals_rows vitalsMap rows).getD [])
      = (rows.filter (fun r =>
          ((numericEntries MapRow.sic_ids vitalsMap).map Prod.fst).contains r.itemId
            && r.val.isSome)).map (fun r =>
          ({ hospitalization_id := r.caseId, time_ref := r.offset,
             category := some (pyReplaceIntStr (numericEntries MapRow.sic_ids vitalsMap)
               r.itemId),
             value := r.val } : CanonRecord))
  ∧ ((etl_sic_vitals_rows vitalsMap rows).getD []).length
      = rows.countP (fun r =>
          ((numericEntries MapRow.sic_ids vitalsMap).map Prod.fst).contains r.itemId
            && r.val.isSome) := by
  have hmain : ((etl_sic_vitals_rows vitalsMap rows).getD [])
      = (rows.filter (fun r =>
          ((numericEntries MapRow.sic_ids vitalsMap).map Prod.fst).contains r.itemId
            && r.val.isSome)).map (fun r =>
          ({ hospitalization_id := r.caseId, time_ref := r.offset,
             category := some (pyReplaceIntStr (numericEntries MapRow.sic_ids vitalsMap)
               r.itemId),
             value := r.val } : CanonRecord)) := by
    simp only [etl_sic_vitals_rows]
    by_cases hdf : (rows.filter (fun r =>
        ((numericEntries MapRow.sic_ids vitalsMap).map Prod.fst).contains r.itemId)).isEmpty
    · rw [if_pos hdf, Option.getD_none]
      rw [List.isEmpty_iff] at hdf
      rw [filter_and_nil _ _ _ hdf, List.map_nil]
    · rw [if_neg hdf, Option.getD_some]
      exact filter_map_filter_comm _ _ _ _ (fun r => rfl) rows
  refine ⟨hmain, ?_⟩
  rw [hmain, List.length_map, List.countP_eq_length_filter]

/-- C2 counterexample: with an empty Resolved Lookup, the source row with
label `"Mystery"` and non-null value is written with category
`some "mystery"` — the lower-cased label itself, a NON-null string — not an
absent/null category. -/
theorem eicu_labs_unmapped_label_counterexample :
    etl_eicu_labs_rows []
        [{stay := 1, offset := 0, labname := some "Mystery", labresult := some "5"}]
      = [{hospitalization_id := 1, time_ref := 0, category := some "mystery",
          value := some "5"}]
  ∧ (etl_eicu_labs_rows []
        [{stay := 1, offset := 0, labname := some "Mystery", labresult := some "5"}]).map
      CanonRecord.category = [some "mystery"] := by decide

/-- C2 (amended): for the eICU labs adapter, rows whose lower-cased label has
no entry in the Resolved Lookup are not dropped at the mapping stage — they
pass through with their category equal to the lower-cased label itself
(polars `replace` leaves unmatched values unchanged), not null; only rows
with a null value are dropped. -/
theorem eicu_labs_unmapped_passthrough (labsMap : List MapRow) (rows : List EicuLabRow) :
    (etl_eicu_labs_rows labsMap rows
      = (rows.filter (fun r => r.labresult.isSome)).map (fun r =>
          ({ hospitalization_id := r.stay, time_ref := r.offset,
             category := r.labname.map (fun s =>
               pyReplace (eicuLabEntries labsMap) (pyLower s)),
             value := r.labresult } : CanonRecord)))
  ∧ (∀ s, pyDictGet (eicuLabEntries labsMap) (pyLower s) = none →
      pyReplace (eicuLabEntries labsMap) (pyLower s) = pyLower s) := by
  constructor
  · simp only [etl_eicu_labs_rows]
    rw [List.filter_map]
    rfl
  · intro s h
    simp [pyReplace, h]

/-- C2 witness: the amended theorem at a one-row table whose label resolves
to nothing, and the pass-through equation for that label. -/
theorem eicu_labs_unmapped_passthrough_witness :
    etl_eicu_labs_rows []
        [{stay := 2, offset := 3, labname := some "Obscure", labresult := some "1"}]
      = [{hospitalization_id := 2, time_ref := 3, category := some "obscure",
          value := some "1"}]
  ∧ pyReplace (eicuLabEntries []) (pyLower "Obscure") = pyLower "Obscure" :=
  ⟨(eicu_labs_unmapped_passthrough []
      [{stay := 2, offset := 3, labname := some "Obscure", labresult := some "1"}]).1,
   (eicu_labs_unmapped_passthrough [] []).2 "Obscure" (by decide)⟩

/-- C3 counterexample: a Mapping Entry whose eICU identifier field is
`"Sodium; Na"` yields the SINGLE lookup key `"sodium; na"` (the whole
lower-cased field); neither `"sodium"` nor `"na"` is a key — the resolver
performs no split on `;` and no per-element trimming. -/
theorem eicu_label_resolver_no_split_counterexample :
    eicuLabEntries [{category := "sodium", eicu_ids := some "Sodium; Na"}]
      = [("sodium; na", "sodium")]
  ∧ pyDictGet (eicuLabEntries [{category := "sodium", eicu_ids := some "Sodium; Na"}])
      "sodium" = none
  ∧ pyDictGet (eicuLabEntries [{category := "sodium", eicu_ids := some "Sodium; Na"}])
      "na" = none := by decide

/-- C3 (amended): for the label-keyed resolver, every Mapping Entry
identifier field that is present, non-empty and not `"nan"` is lower-cased
AS A WHOLE and inserted as a single key mapping to the entry's category; a
multi-element `;`-list yields one lookup key for the entire list string, not
one key per element. -/
theorem eicu_label_resolver_whole_field (rows : List MapRow) :
    (∀ k c, (k, c) ∈ eicuLabEntries rows →
      ∃ r, r ∈ rows ∧ ∃ s, r.eicu_ids = some s ∧ ¬s = "" ∧ ¬s = "nan" ∧
        k = pyLower s ∧ c = r.category)
  ∧ (∀ r ∈ rows, ∀ s, r.eicu_ids = some s → ¬s = "" → ¬s = "nan" →
      (pyLower s, r.category) ∈ eicuLabEntries rows) := by
  constructor
  · intro k c h
    rw [eicuLabEntries, List.mem_filterMap] at h
    obtain ⟨r, hr, heq⟩ := h
    cases hs : r.eicu_ids with
    | none => rw [hs] at heq; cases heq
    | some s =>
      rw [hs] at heq
      dsimp only at heq
      by_cases h1 : (!(s == "") && !(s == "nan")) = true
      · rw [if_pos h1] at heq
        simp only [Option.some.injEq, Prod.mk.injEq] at heq
        simp only [Bool.and_eq_true, Bool.not_eq_true', beq_eq_false_iff_ne] at h1
        exact ⟨r, hr, s, hs, h1.1, h1.2, heq.1.symm, heq.2.symm⟩
      · rw [if_neg h1] at heq; cases heq
  · intro r hr s hs h1 h2
    rw [eicuLabEntries, List.mem_filterMap]
    refine ⟨r, hr, ?_⟩
    rw [hs]
    dsimp only
    rw [if_pos (by simp [h1, h2])]

/-- C3 witness: the amended theorem inserting the whole lower-cased field
for a concrete entry. -/
theorem eicu_label_resolver_whole_field_witness :
    (pyLower "GLUC", "glucose")
      ∈ eicuLabEntries [{category := "glucose", eicu_ids := some "GLUC"}] :=
  (eicu_label_resolver_whole_field
      [{category := "glucose", eicu_ids := some "GLUC"}]).2
    {category := "glucose", eicu_ids := some "GLUC"} (by decide) "GLUC" rfl
    (by decide) (by decide)

/-- C8 counterexample: the spec's end-to-end scenario — columns
`id, time, heartrate, temperature`, rows `(1,0,88,37.1)` and
`(1,5,null,37.2)` — yields THREE canonical rows, not two: the non-null
temperature observation of the first source row, `(1,0,temp_c,37.1)`, is
also written (in the adapter's column-major unpivot order). -/
theorem eicu_wide_scenario_counterexample :
    etl_eicu_vitals_rows
        ["patientunitstayid", "observationoffset", "heartrate", "temperature"]
        [{stay := 1, time := 0,
          cells := [("heartrate", some "88"), ("temperature", some "37.1")]},
         {stay := 1, time := 5,
          cells := [("heartrate", none), ("temperature", some "37.2")]}]
      = some [{hospitalization_id := 1, time_ref := 0, category := some "temp_c",
               value := some "37.1"},
              {hospitalization_id := 1, time_ref := 5, category := some "temp_c",
               value := some "37.2"},
              {hospitalization_id := 1, time_ref := 0, category := some "heart_rate",
               value := some "88"}]
  ∧ ((etl_eicu_vitals_rows
        ["patientunitstayid", "observationoffset", "heartrate", "temperature"]
        [{stay := 1, time := 0,
          cells := [("heartrate", some "88"), ("temperature", some "37.1")]},
         {stay := 1, time := 5,
          cells := [("heartrate", none), ("temperature", some "37.2")]}]).getD []).length
      = 3 := by decide

/-- C8 (amended): unpivoting the N selected value columns over R source rows
yields exactly R × N intermediate long rows before null filtering; after
filtering only non-null-value rows remain; and the spec's scenario yields
the THREE canonical rows `(1,0,temp_c,37.1)`, `(1,5,temp_c,37.2)`,
`(1,0,heart_rate,88)` — the null heartrate observation is dropped, not the
whole source row. -/
theorem eicu_wide_unpivot_counts (availableCols : List String) (rows : List EicuWideRow) :
    (eicuUnpivot (eicuValueCols availableCols) rows).length
      = (eicuValueCols availableCols).length * rows.length
  ∧ (∀ recs, etl_eicu_vitals_rows availableCols rows = some recs →
      ∀ c ∈ recs, c.value.isSome)
  ∧ etl_eicu_vitals_rows
        ["patientunitstayid", "observationoffset", "heartrate", "temperature"]
        [{stay := 1, time := 0,
          cells := [("heartrate", some "37.1"), ("temperature", some "36.8")]},
         {stay := 1, time := 5,
          cells := [("heartrate", none), ("temperature", some "37.2")]}]
      = some [{hospitalization_id := 1, time_ref := 0, category := some "temp_c",
               value := some "36.8"},
              {hospitalization_id := 1, time_ref := 5, category := some "temp_c",
               value := some "37.2"},
              {hospitalization_id := 1, time_ref := 0, category := some "heart_rate",
               value := some "37.1"}] := by
  refine ⟨?_, ?_, by decide⟩
  · simp [eicuUnpivot, List.length_flatMap, Function.comp_def, List.length_map,
      List.map_const', List.sum_replicate, smul_eq_mul]
  · intro recs h c hc
    simp only [etl_eicu_vitals_rows] at h
    by_cases hv : (eicuValueCols availableCols).isEmpty
    · rw [if_pos hv] at h; cases h
    · rw [if_neg hv] at h
      obtain rfl := Option.some.inj h
      exact (List.mem_filter.mp hc).2

/-- C8 witness: the filtered-output part of the amended theorem at a
one-column, one-row table. -/
theorem eicu_wide_unpivot_counts_witness :
    (({hospitalization_id := 4, time_ref := 2, category := some "heart_rate",
       value := some "88"} : CanonRecord)).value.isSome :=
  (eicu_wide_unpivot_counts ["heartrate"]
      [{stay := 4, time := 2, cells := [("heartrate", some "88")]}]).2.1
    [{hospitalization_id := 4, time_ref := 2, category := some "heart_rate",
      value := some "88"}] (by decide)
    {hospitalization_id := 4, time_ref := 2, category := some "heart_rate",
     value := some "88"} (by decide)

/-- C10: for the HiRID and AUMC drivers the labs step never creates a labs
output file (the labs slot of the output state is untouched), and every
observation row whose identifier the labs mapping table claims (with a
non-null value) is persisted into the VITALS output file with the labs
category in its category column. -/
theorem hirid_aumc_labs_into_vitals (vitalsMap labsMap : List MapRow)
    (obsFile : Option (List ObsRow)) (aumcFile : Option (List AumcRow)) (st : EtlState) :
    (etl_hirid obsFile vitalsMap labsMap st).labsOut = st.labsOut
  ∧ (etl_aumc aumcFile vitalsMap labsMap st).labsOut = st.labsOut
  ∧ (∀ rows r c, obsFile = some rows → r ∈ rows →
      pyDictGet (numericEntries MapRow.hirid_ids labsMap) r.variableid = some c →
      r.value.isSome →
      ({ hospitalization_id := r.pid, time_ref := r.datetime, category := some c,
         value := r.value } : CanonRecord)
        ∈ ((etl_hirid obsFile vitalsMap labsMap st).vitalsOut.getD []))
  ∧ (∀ rows r c, aumcFile = some rows → r ∈ rows →
      pyDictGet (numericEntries MapRow.aumc_ids labsMap) r.itemid = some c →
      r.value.isSome →
      ({ hospitalization_id := r.admissionid, time_ref := r.measuredat,
         category := some c, value := r.value } : CanonRecord)
        ∈ ((etl_aumc aumcFile vitalsMap labsMap st).vitalsOut.getD [])) := by
  refine ⟨?_, ?_, ?_, ?_⟩
  · cases obsFile with
    | none => rfl
    | some rows =>
      simp only [etl_hirid, run_etl_hirid_labs, run_etl_hirid_vitals]
      cases etl_hirid_vitals_rows vitalsMap labsMap rows <;> rfl
  · cases aumcFile with
    | none => rfl
    | some rows =>
      simp only [etl_aumc, run_etl_aumc_labs, run_etl_aumc_vitals]
      cases etl_aumc_vitals_rows vitalsMap labsMap rows <;> rfl
  · rintro rows r c rfl hr hlk hv
    have hmerged : pyDictGet (hiridMergedEntries vitalsMap labsMap) r.variableid
        = some c := by
      simp only [hiridMergedEntries]
      exact pyDictGet_append_right _ _ _ _ hlk
    have hcont : ((hiridMergedEntries vitalsMap labsMap).map Prod.fst).contains
        r.variableid = true := by
      have := pyDictGet_mem_keys _ _ _ hmerged
      simpa using this
    have hdf : r ∈ rows.filter (fun x =>
        ((hiridMergedEntries vitalsMap labsMap).map Prod.fst).contains x.variableid) :=
      List.mem_filter.mpr ⟨hr, hcont⟩
    have hne : (rows.filter (fun x =>
        ((hiridMergedEntries vitalsMap labsMap).map Prod.fst).contains
          x.variableid)).isEmpty = false := by
      rw [List.isEmpty_eq_false]
      exact List.ne_nil_of_mem hdf
    have hout : etl_hirid_vitals_rows vitalsMap labsMap rows
        = some (((rows.filter (fun x =>
            ((hiridMergedEntries vitalsMap labsMap).map Prod.fst).contains
              x.variableid)).map (fun x =>
          ({ hospitalization_id := x.pid, time_ref := x.datetime,
             category := some (pyReplaceIntStr (hiridMergedEntries vitalsMap labsMap)
               x.variableid),
             value := x.value } : CanonRecord))).filter (fun c => c.value.isSome)) := by
      simp only [etl_hirid_vitals_rows, hne, Bool.false_eq_true, if_false]
    simp only [etl_hirid, run_etl_hirid_labs, run_etl_hirid_vitals, hout,
      Option.getD_some]
    refine List.mem_filter.mpr ⟨?_, hv⟩
    have hcanon : CanonRecord.mk r.pid r.datetime (some c) r.value
        = CanonRecord.mk r.pid r.datetime
            (some (pyReplaceIntStr (hiridMergedEntries vitalsMap labsMap) r.variableid))
            r.value := by
      simp [pyReplaceIntStr, hmerged]
    rw [hcanon]
    exact List.mem_map_of_mem _ hdf
  · rintro rows r c rfl hr hlk hv
    have hmerged : pyDictGet (aumcMergedEntries vitalsMap labsMap) r.itemid
        = some c := by
      simp only [aumcMergedEntries]
      exact pyDictGet_append_right _ _ _ _ hlk
    have hcont : ((aumcMergedEntries vitalsMap labsMap).map Prod.fst).contains
        r.itemid = true := by
      have := pyDictGet_mem_keys _ _ _ hmerged
      simpa using this
    have hdf : r ∈ rows.filter (fun x =>
        ((aumcMergedEntries vitalsMap labsMap).map Prod.fst).contains x.itemid) :=
      List.mem_filter.mpr ⟨hr, hcont⟩
    have hne : (rows.filter (fun x =>
        ((aumcMergedEntries vitalsMap labsMap).map Prod.fst).contains
          x.itemid)).isEmpty = false := by
      rw [List.isEmpty_eq_false]
      exact List.ne_nil_of_mem hdf
    have hout : etl_aumc_vitals_rows vitalsMap labsMap rows
        = some (((rows.filter (fun x =>
            ((aumcMergedEntries vitalsMap labsMap).map Prod.fst).contains
              x.itemid)).map (fun x =>
          ({ hospitalization_id := x.admissionid, time_ref := x.measuredat,
             category := some (pyReplaceIntStr (aumcMergedEntries vitalsMap labsMap)
               x.itemid),
             value := x.value } : CanonRecord))).filter (fun c => c.value.isSome)) := by
      simp only [etl_aumc_vitals_rows, hne, Bool.false_eq_true, if_false]
    simp only [etl_aumc, run_etl_aumc_labs, run_etl_aumc_vitals, hout,
      Option.getD_some]
    refine List.mem_filter.mpr ⟨?_, hv⟩
    have hcanon : CanonRecord.mk r.admissionid r.measuredat (some c) r.value
        = CanonRecord.mk r.admissionid r.measuredat
            (some (pyReplaceIntStr (aumcMergedEntries vitalsMap labsMap) r.itemid))
            r.value := by
      simp [pyReplaceIntStr, hmerged]
    rw [hcanon]
    exact List.mem_map_of_mem _ hdf

/-- C10 witness: a lab observation (variableid 9, claimed only by the labs
mapping table) lands in the HiRID vitals output with the labs category. -/
theorem hirid_aumc_labs_into_vitals_witness :
    CanonRecord.mk 7 100 (some "sodium") (some "140")
      ∈ ((etl_hirid (some [ObsRow.mk 7 100 9 (some "140")]) []
          [{category := "sodium", hirid_ids := some "9"}]
          (EtlState.mk none none)).vitalsOut.getD []) :=
  (hirid_aumc_labs_into_vitals [] [{category := "sodium", hirid_ids := some "9"}]
      (some [ObsRow.mk 7 100 9 (some "140")]) none (EtlState.mk none none)).2.2.1
    [ObsRow.mk 7 100 9 (some "140")] (ObsRow.mk 7 100 9 (some "140")) "sodium" rfl
    (by decide) (by decide) (by decide)
